import Mathlib

/-!
Verification development for the `aws-scripts` repository: a shallow
embedding, in Lean 4, of the resilient external-command invoker of
`src/azure/list_azure_vms.py` and of the record-shaping and script-exit
logic of the Azure and MSK scripts, together with theorems settling the
frozen claims about them.

External effects are modelled explicitly: a strategy attempt's interaction
with the operating system is an oracle `exec : ProcCall → ExecOutcome`
(the outcome `subprocess.run` would yield, with the caught exception kinds
as dedicated constructors), and `json.loads` is an oracle
`parse : String → Option PyVal` (`none` models `json.JSONDecodeError`).
Python values are modelled by `PyVal`; the Python `None` that
`run_azure_cli_command` returns after exhausting its strategies is
`PyVal.pynone`.
-/

/-- Whitespace as recognised by Python's `str.strip()` / `str.split()`. -/
def isPySpace (c : Char) : Bool :=
  c = ' ' || c = '\t' || c = '\n' || c = '\r' || c = '\x0b' || c = '\x0c'

/-- Truthiness of `s.strip()` in Python: true iff `s` has a
non-whitespace character. -/
def pyStripTruthy (s : String) : Bool :=
  s.data.any (fun c => !isPySpace c)

/-- Accumulator worker for `pySplitWs`; `acc` holds the current token's
characters in reverse. -/
def pySplitWsAux : List Char → List Char → List String
  | [], acc => if acc.isEmpty then [] else [⟨acc.reverse⟩]
  | c :: cs, acc =>
    if isPySpace c then
      if acc.isEmpty then pySplitWsAux cs []
      else ⟨acc.reverse⟩ :: pySplitWsAux cs []
    else pySplitWsAux cs (c :: acc)

/-- Python `s.split()` with no separator: split on whitespace runs,
dropping empty tokens. -/
def pySplitWs (s : String) : List String :=
  pySplitWsAux s.data []

/-- Does the second list start with the first one? -/
def startsWithL : List Char → List Char → Bool
  | [], _ => true
  | _ :: _, [] => false
  | p :: ps, c :: cs => p == c && startsWithL ps cs

/-- Worker for `pyReplace`: replace every non-overlapping occurrence of
the non-empty pattern `p :: ps` by `rep`, scanning left to right.  The
fuel argument (instantiated with the text's length, which bounds the
number of scanning steps) makes the recursion structural, so the
definition evaluates inside the kernel. -/
def pyReplaceAux (p : Char) (ps rep : List Char) : Nat → List Char → List Char
  | _, [] => []
  | 0, l => l
  | fuel + 1, c :: cs =>
    if startsWithL (p :: ps) (c :: cs) then
      rep ++ pyReplaceAux p ps rep fuel (cs.drop ps.length)
    else
      c :: pyReplaceAux p ps rep fuel cs

/-- Python `s.replace(pat, rep)` for a non-empty pattern (the scripts
only ever call it with the pattern `"az "`). -/
def pyReplace (s pat rep : String) : String :=
  match pat.data with
  | [] => s
  | p :: ps => ⟨pyReplaceAux p ps rep.data s.data.length s.data⟩

/-- Python `s.split(sep)` for a single-character separator, on the
character list: always returns one more group than there are separator
occurrences. -/
def pySplitChar (sep : Char) : List (Char) → List (List Char)
  | [] => [[]]
  | c :: cs =>
    match pySplitChar sep cs with
    | [] => [[]]
    | g :: gs => if c = sep then [] :: g :: gs else (c :: g) :: gs

/-- An untyped Python value, as produced by `json.loads` and shaped by the
scripts.  `pyobj` stands for a non-JSON-serialisable object (such as a
`datetime`) carrying its `str()` rendering. -/
inductive PyVal
  | pynone
  | pybool (b : Bool)
  | pyint (n : Int)
  | pystr (s : String)
  | pylist (elts : List PyVal)
  | pydict (entries : List (String × PyVal))
  | pyobj (asStr : String)

/-- Python truthiness (`bool(v)`) of a `PyVal`. -/
def pyFalsy : PyVal → Bool
  | .pynone => true
  | .pybool b => !b
  | .pyint n => n == 0
  | .pystr s => s.isEmpty
  | .pylist l => l.isEmpty
  | .pydict l => l.isEmpty
  | .pyobj _ => false

/-- Result of one `subprocess.run` attempt: either the process completed
(with exit code and captured output), or one of the exception kinds the
scripts catch was raised. -/
inductive ExecOutcome
  | completed (returncode : Int) (stdout : String) (stderr : String)
  | timedOut
  | notFound
  | otherError (msg : String)
deriving DecidableEq, Repr

/-- One concrete process invocation as built by a strategy: a shell
command line (`shell=True`) or an argument vector, each with the
`timeout=` argument that was (or was not) passed to `subprocess.run`. -/
inductive ProcCall
  | shell (cmdline : String) (timeoutSec : Option Nat)
  | argv (args : List String) (timeoutSec : Option Nat)
deriving DecidableEq, Repr

/-- Execution mode of a strategy. -/
inductive ExecMode
  | direct
  | shell
deriving DecidableEq, Repr

/-- Execution mode of a built process invocation. -/
def procMode : ProcCall → ExecMode
  | .shell _ _ => .shell
  | .argv _ _ => .direct

/-- The binary a process invocation names: the first whitespace token of a
shell command line, or the head of an argument vector. -/
def procBinary : ProcCall → Option String
  | .shell cmdline _ => (pySplitWs cmdline).head?
  | .argv args _ => args.head?

/-- The `timeout=` value (seconds) a process invocation passes to
`subprocess.run`, if any. -/
def procTimeoutSec : ProcCall → Option Nat
  | .shell _ t => t
  | .argv _ t => t

/-- The ordered strategy list built by `run_azure_cli_command`
(src/azure/list_azure_vms.py lines 35-52): four methods on Windows
(`az.cmd` via shell, the command via shell, `az.cmd` split into an
argument vector, the command split into an argument vector), two methods
otherwise (argument vector, then shell), all with `timeout=60`. -/
def run_azure_cli_methods (is_windows : Bool) (command : String) : List ProcCall :=
  if is_windows then
    [ ProcCall.shell ("az.cmd " ++ pyReplace command "az " "") (some 60),
      ProcCall.shell command (some 60),
      ProcCall.argv (pySplitWs ("az.cmd " ++ pyReplace command "az " "")) (some 60),
      ProcCall.argv (pySplitWs command) (some 60) ]
  else
    [ ProcCall.argv (pySplitWs command) (some 60),
      ProcCall.shell command (some 60) ]

/-- The ordered strategy list of the availability probe
`check_azure_cli_installed` (src/azure/list_azure_vms.py lines 98-111),
all with `timeout=10`. -/
def check_azure_cli_installed_methods (is_windows : Bool) : List ProcCall :=
  if is_windows then
    [ ProcCall.shell "az.cmd --version" (some 10),
      ProcCall.shell "az --version" (some 10),
      ProcCall.argv ["az.cmd", "--version"] (some 10),
      ProcCall.argv ["az", "--version"] (some 10) ]
  else
    [ ProcCall.argv ["az", "--version"] (some 10),
      ProcCall.shell "az --version" (some 10) ]

/-- The ordered strategy list of the session probe `check_azure_login`
(src/azure/list_azure_vms.py lines 144-157): note that none of these
calls passes a `timeout=` argument to `subprocess.run`. -/
def check_azure_login_methods (is_windows : Bool) : List ProcCall :=
  if is_windows then
    [ ProcCall.shell "az.cmd account show" none,
      ProcCall.shell "az account show" none,
      ProcCall.argv ["az.cmd", "account", "show"] none,
      ProcCall.argv ["az", "account", "show"] none ]
  else
    [ ProcCall.argv ["az", "account", "show"] none,
      ProcCall.shell "az account show" none ]

/-- The strategy loop of `run_azure_cli_command` (src/azure/list_azure_vms.py
lines 54-83): try each method in order; on a completed process with exit
code 0 and truthy `stdout.strip()`, attempt `json.loads` and return its
value on success; on parse failure, non-zero exit, empty output, or any
caught exception, continue with the next method; return Python `None`
when all methods are exhausted.  The second component instruments the
model with the number of methods actually invoked. -/
def run_azure_cli_loop (exec : ProcCall → ExecOutcome)
    (parse : String → Option PyVal) : List ProcCall → PyVal × Nat
  | [] => (PyVal.pynone, 0)
  | m :: rest =>
    match exec m with
    | .completed rc out _ =>
      if rc == 0 && pyStripTruthy out then
        match parse out with
        | some v => (v, 1)
        | none =>
          let r := run_azure_cli_loop exec parse rest
          (r.1, r.2 + 1)
      else
        let r := run_azure_cli_loop exec parse rest
        (r.1, r.2 + 1)
    | _ =>
      let r := run_azure_cli_loop exec parse rest
      (r.1, r.2 + 1)

/-- `run_azure_cli_command` of src/azure/list_azure_vms.py: build the
platform strategy list and run the strategy loop over it. -/
def run_azure_cli_command (exec : ProcCall → ExecOutcome)
    (parse : String → Option PyVal) (is_windows : Bool) (command : String) :
    PyVal × Nat :=
  run_azure_cli_loop exec parse (run_azure_cli_methods is_windows command)

/-- The shared probe loop of `check_azure_cli_installed` and
`check_azure_login`: return `True` at the first method whose process
completes with exit code 0; exceptions and non-zero exits fall through to
the next method; `False` after exhausting the list. -/
def probe_ok_loop (exec : ProcCall → ExecOutcome) : List ProcCall → Bool
  | [] => false
  | m :: rest =>
    match exec m with
    | .completed rc _ _ => if rc == 0 then true else probe_ok_loop exec rest
    | _ => probe_ok_loop exec rest

/-- `check_azure_cli_installed` of src/azure/list_azure_vms.py. -/
def check_azure_cli_installed (exec : ProcCall → ExecOutcome) (is_windows : Bool) : Bool :=
  probe_ok_loop exec (check_azure_cli_installed_methods is_windows)

/-- `check_azure_login` of src/azure/list_azure_vms.py. -/
def check_azure_login (exec : ProcCall → ExecOutcome) (is_windows : Bool) : Bool :=
  probe_ok_loop exec (check_azure_login_methods is_windows)

/-- A JSON document tree, as written by `json.dump` and read back by
`json.load`.  The textual encode/decode pair of Python's `json` module is
an out-of-scope collaborator and is modelled as the identity on these
trees. -/
inductive JsonVal
  | jnull
  | jbool (b : Bool)
  | jint (n : Int)
  | jstr (s : String)
  | jarr (elts : List JsonVal)
  | jobj (entries : List (String × JsonVal))

mutual

/-- Serialisation performed by `json.dump(..., default=str)`: JSON-native
values map to themselves and any non-serialisable object is rendered by
`str` (src/azure/list_azure_vms.py line 435). -/
def pyToJson : PyVal → JsonVal
  | .pynone => .jnull
  | .pybool b => .jbool b
  | .pyint n => .jint n
  | .pystr s => .jstr s
  | .pylist l => .jarr (pyToJsonList l)
  | .pydict l => .jobj (pyToJsonDict l)
  | .pyobj s => .jstr s

/-- `pyToJson` mapped over a list of values. -/
def pyToJsonList : List PyVal → List JsonVal
  | [] => []
  | v :: vs => pyToJson v :: pyToJsonList vs

/-- `pyToJson` mapped over a dictionary's entries. -/
def pyToJsonDict : List (String × PyVal) → List (String × JsonVal)
  | [] => []
  | e :: es => (e.1, pyToJson e.2) :: pyToJsonDict es

end

mutual

/-- Decoding performed by `json.load`: JSON trees become the corresponding
Python values. -/
def jsonToPy : JsonVal → PyVal
  | .jnull => .pynone
  | .jbool b => .pybool b
  | .jint n => .pyint n
  | .jstr s => .pystr s
  | .jarr l => .pylist (jsonToPyList l)
  | .jobj l => .pydict (jsonToPyDict l)

/-- `jsonToPy` mapped over a list of trees. -/
def jsonToPyList : List JsonVal → List PyVal
  | [] => []
  | v :: vs => jsonToPy v :: jsonToPyList vs

/-- `jsonToPy` mapped over an object's entries. -/
def jsonToPyDict : List (String × JsonVal) → List (String × PyVal)
  | [] => []
  | e :: es => (e.1, jsonToPy e.2) :: jsonToPyDict es

end

mutual

/-- Normalisation a dump/load round trip applies to a Python value:
non-JSON objects are replaced by their `str` rendering, everything else
is kept. -/
def pyJsonNorm : PyVal → PyVal
  | .pynone => .pynone
  | .pybool b => .pybool b
  | .pyint n => .pyint n
  | .pystr s => .pystr s
  | .pylist l => .pylist (pyJsonNormList l)
  | .pydict l => .pydict (pyJsonNormDict l)
  | .pyobj s => .pystr s

/-- `pyJsonNorm` mapped over a list of values. -/
def pyJsonNormList : List PyVal → List PyVal
  | [] => []
  | v :: vs => pyJsonNorm v :: pyJsonNormList vs

/-- `pyJsonNorm` mapped over a dictionary's entries. -/
def pyJsonNormDict : List (String × PyVal) → List (String × PyVal)
  | [] => []
  | e :: es => (e.1, pyJsonNorm e.2) :: pyJsonNormDict es

end

/-- Dictionary lookup, as `d['k']` / `d.get('k')` on a parsed JSON object. -/
def pyDictGet (k : String) : PyVal → Option PyVal
  | .pydict entries => entries.lookup k
  | _ => none

/-- The wrapper dictionary `save_vms_to_json` writes
(src/azure/list_azure_vms.py lines 428-432): generation timestamp
(`datetime.now().isoformat()`, a string), VM count, and the VM list. -/
def save_vms_to_json_data (now_iso : String) (vms_info : List PyVal) : PyVal :=
  .pydict [ ("generated_at", .pystr now_iso),
            ("total_vms", .pyint vms_info.length),
            ("vms", .pylist vms_info) ]


/-- The `hardwareProfile` sub-dictionary of a VM record, as read by
`format_vm_info`. -/
structure HardwareProfile where
  vmSize : Option String

/-- The `networkProfile` sub-dictionary of a VM record, as read by
`format_vm_info`. -/
structure NetworkProfile where
  networkInterfaces : Option (List PyVal)

/-- One VM dictionary as returned by `az vm list`, restricted to the keys
`format_vm_info` reads; `none` models an absent key. -/
structure AzureVM where
  name : Option String
  resourceGroup : Option String
  location : Option String
  id : Option String
  hardwareProfile : Option HardwareProfile
  powerState : Option String
  networkProfile : Option NetworkProfile
  tags : Option PyVal

/-- Output of `get_vm_os_info` (src/azure/list_azure_vms.py lines 211-259):
a four-field dictionary merged into the formatted record when detailed VM
information is available. -/
structure OSInfo where
  os_type : String
  os_name : String
  os_version : String
  os_disk_size_gb : PyVal

/-- The formatted record built by `format_vm_info`
(src/azure/list_azure_vms.py lines 274-306). -/
structure VMInfo where
  name : String
  resource_group : String
  location : String
  subscription : String
  subscription_id : String
  vm_size : String
  power_state : String
  os_type : String
  os_name : String
  os_version : String
  os_disk_size_gb : PyVal
  private_ip : String
  public_ip : String
  tags : PyVal
  network_interfaces : Option Nat

/-- `format_vm_info` of src/azure/list_azure_vms.py (lines 262-306).
The `subscription_id` field is computed as
`vm.get('id', '').split('/')[2] if vm.get('id') else 'Unknown'`
(line 279); the `[2]` indexing may raise `IndexError`, modelled by the
`Except.error` result.  `vm_details` stands for the already-extracted
`get_vm_os_info(vm_details)` record, whose fields overwrite the defaults
via `formatted_info.update(os_info)`. -/
def format_vm_info (vm : AzureVM) (subscription_name : String)
    (vm_details : Option OSInfo) : Except String VMInfo :=
  let subId : Except String String :=
    match vm.id with
    | none => Except.ok "Unknown"
    | some id =>
      if id.isEmpty then Except.ok "Unknown"
      else
        match (pySplitChar '/' id.data).get? 2 with
        | some seg => Except.ok ⟨seg⟩
        | none => Except.error "IndexError"
  match subId with
  | Except.error e => Except.error e
  | Except.ok sid =>
    let base : VMInfo :=
      { name := vm.name.getD "Unknown"
        resource_group := vm.resourceGroup.getD "Unknown"
        location := vm.location.getD "Unknown"
        subscription := subscription_name
        subscription_id := sid
        vm_size := ((vm.hardwareProfile.map HardwareProfile.vmSize).join).getD "Unknown"
        power_state :=
          match vm.powerState with
          | some p => if p.isEmpty then "Unknown" else p
          | none => "Unknown"
        os_type := "Unknown"
        os_name := "Unknown"
        os_version := "Unknown"
        os_disk_size_gb := PyVal.pystr "Unknown"
        private_ip := "Unknown"
        public_ip := "Unknown"
        tags := vm.tags.getD (PyVal.pydict [])
        network_interfaces := none }
    let withOs : VMInfo :=
      match vm_details with
      | some osi =>
        { base with
          os_type := osi.os_type
          os_name := osi.os_name
          os_version := osi.os_version
          os_disk_size_gb := osi.os_disk_size_gb }
      | none => base
    let withNet : VMInfo :=
      match vm.networkProfile with
      | some np =>
        match np.networkInterfaces with
        | some ifaces =>
          if ifaces.isEmpty then withOs
          else { withOs with network_interfaces := some ifaces.length }
        | none => withOs
      | none => withOs
    Except.ok withNet

/-- Outcome of the body of the `try` block in the Azure script's `main`
(src/azure/list_azure_vms.py lines 615-696): it either completes (also
when zero subscriptions or zero VMs are found, via the early `return`
statements), or raises `KeyboardInterrupt`, or raises some other
exception. -/
inductive BodyOutcome
  | ok
  | keyboardInterrupt
  | exn (msg : String)
deriving DecidableEq, Repr

/-- Process exit code of the Azure script's `main`
(src/azure/list_azure_vms.py lines 576-701): `sys.exit(1)` when
`check_azure_cli_installed` fails (line 607) or `check_azure_login` fails
(line 613); otherwise the `try`/`except` absorbs every body outcome and
`main` returns normally, so the process exits 0.  (Command-line argument
parsing, which precedes these checks, is out of scope.) -/
def azure_main_exit (cli_installed logged_in : Bool) (_body : BodyOutcome) : Nat :=
  if !cli_installed then 1
  else if !logged_in then 1
  else 0

/-- Outcome of the AWS-touching body of an MSK script: it either
completes (also with zero clusters found), or raises
`NoCredentialsError`, a `ClientError`, or some other exception. -/
inductive AwsOutcome
  | ok
  | noCredentials
  | clientError (msg : String)
  | otherExn (msg : String)
deriving DecidableEq, Repr

/-- Process exit code of src/msk/list_msk_clusters.py: `list_msk_clusters`
(lines 12-75) catches `NoCredentialsError`, `ClientError` and `Exception`,
prints a message in each case and returns; the `__main__` block never
calls `sys.exit`, so the process exits 0 on every outcome. -/
def list_msk_clusters_exit (_outcome : AwsOutcome) : Nat :=
  0

/-- Process exit code of src/msk/list_msk_cloudwatch_metrics.py: `main`
(lines 347-410) catches `NoCredentialsError` (printing a remediation
message) and `Exception` (logging the message) and returns; the process
exits 0 on every outcome. -/
def msk_cloudwatch_main_exit (_outcome : AwsOutcome) : Nat :=
  0

/-- How a script's entry point disposes of the body's outcome. -/
structure ToplevelHandling where
  propagates : Bool
  logsMessage : Bool
  logsTraceback : Bool
  exitCode : Nat
deriving DecidableEq, Repr

/-- Entry-point error disposal of the Azure script
(src/azure/list_azure_vms.py lines 691-696): `KeyboardInterrupt` prints a
cancellation note; any other exception is logged together with
`traceback.format_exc()`; in every case `main` returns normally and the
process exits 0. -/
def azure_main_toplevel : BodyOutcome → ToplevelHandling
  | .ok => ⟨false, false, false, 0⟩
  | .keyboardInterrupt => ⟨false, false, false, 0⟩
  | .exn _ => ⟨false, true, true, 0⟩

/-- Entry-point error disposal of the MSK CloudWatch script
(src/msk/list_msk_cloudwatch_metrics.py lines 406-410):
`NoCredentialsError` prints a remediation message; any other exception is
logged with its message only (no traceback); in every case `main` returns
normally and the process exits 0. -/
def msk_cloudwatch_main_toplevel : AwsOutcome → ToplevelHandling
  | .ok => ⟨false, false, false, 0⟩
  | .noCredentials => ⟨false, false, false, 0⟩
  | .clientError _ => ⟨false, true, false, 0⟩
  | .otherExn _ => ⟨false, true, false, 0⟩

/-- The subscription gate in the Azure script's `main`
(src/azure/list_azure_vms.py lines 620-622): `if not subscriptions:`
prints "No subscriptions found or accessible." and returns, so the run is
aborted exactly when the value returned by `get_subscriptions` is falsy. -/
def main_subscriptions_check_aborts (subscriptions : PyVal) : Bool :=
  pyFalsy subscriptions

/-- Success of one strategy attempt exactly as the specification phrases
it: the process exits with code zero, standard output is non-empty, and
the output parses as JSON; the parsed payload is returned. -/
def specSuccess (parse : String → Option PyVal) (r : ExecOutcome) : Option PyVal :=
  match r with
  | .completed rc out _ => if rc = 0 ∧ out ≠ "" then parse out else none
  | _ => none

/-- Failure of one strategy attempt as the specification enumerates it:
non-zero exit code, empty standard output, binary not found, timeout, or
any other execution exception. -/
def attemptFails : ExecOutcome → Bool
  | .completed rc out _ => rc != 0 || out == ""
  | _ => true

/-! Shared lemmas about the embedded definitions. -/

mutual

/-- Shared round-trip lemma: decoding a serialised value yields the value
with its non-JSON objects stringified. -/
theorem jsonToPy_pyToJson (v : PyVal) : jsonToPy (pyToJson v) = pyJsonNorm v := by
  cases v with
  | pynone => rfl
  | pybool b => rfl
  | pyint n => rfl
  | pystr s => rfl
  | pyobj s => rfl
  | pylist l => simp [pyToJson, jsonToPy, pyJsonNorm, jsonToPy_pyToJsonList l]
  | pydict l => simp [pyToJson, jsonToPy, pyJsonNorm, jsonToPy_pyToJsonDict l]

/-- List version of the round-trip lemma. -/
theorem jsonToPy_pyToJsonList (l : List PyVal) :
    jsonToPyList (pyToJsonList l) = pyJsonNormList l := by
  cases l with
  | nil => rfl
  | cons v vs =>
    simp [pyToJsonList, jsonToPyList, pyJsonNormList, jsonToPy_pyToJson v,
      jsonToPy_pyToJsonList vs]

/-- Dictionary version of the round-trip lemma. -/
theorem jsonToPy_pyToJsonDict (l : List (String × PyVal)) :
    jsonToPyDict (pyToJsonDict l) = pyJsonNormDict l := by
  cases l with
  | nil => rfl
  | cons e es =>
    simp [pyToJsonDict, jsonToPyDict, pyJsonNormDict, jsonToPy_pyToJson e.2,
      jsonToPy_pyToJsonDict es]

end

/-- A string whose `strip()` is truthy is non-empty. -/
theorem pyStripTruthy_ne_empty {s : String} (h : pyStripTruthy s = true) : s ≠ "" := by
  intro he
  subst he
  simp [pyStripTruthy] at h

/-- If the attempt at the head strategy is not a spec-success, the loop
moves on to the remaining strategies, spending one extra attempt. -/
theorem run_azure_cli_loop_step_fail (exec : ProcCall → ExecOutcome)
    (parse : String → Option PyVal) (m : ProcCall) (rest : List ProcCall)
    (h : specSuccess parse (exec m) = none) :
    run_azure_cli_loop exec parse (m :: rest) =
      ((run_azure_cli_loop exec parse rest).1,
       (run_azure_cli_loop exec parse rest).2 + 1) := by
  rw [run_azure_cli_loop]
  cases hm : exec m with
  | completed rc out err =>
    rw [hm] at h
    simp only [specSuccess] at h
    by_cases hrc : rc = 0
    · subst hrc
      by_cases hout : pyStripTruthy out = true
      · have hne := pyStripTruthy_ne_empty hout
        simp [hne] at h
        simp [hout, h]
      · simp [Bool.not_eq_true] at hout
        simp [hout]
    · have : (rc == 0) = false := by simp [hrc]
      simp [this]
  | timedOut => simp
  | notFound => simp
  | otherError msg => simp

/-- If the attempt at the head strategy is a spec-success, the loop
returns its parsed payload after exactly one attempt.  The side condition
`hws` states that the JSON parser rejects whitespace-only text, which
every JSON parser does. -/
theorem run_azure_cli_loop_step_succ (exec : ProcCall → ExecOutcome)
    (parse : String → Option PyVal)
    (hws : ∀ s, pyStripTruthy s = false → parse s = none)
    (m : ProcCall) (rest : List ProcCall) (v : PyVal)
    (h : specSuccess parse (exec m) = some v) :
    run_azure_cli_loop exec parse (m :: rest) = (v, 1) := by
  rw [run_azure_cli_loop]
  cases hm : exec m with
  | completed rc out err =>
    rw [hm] at h
    simp only [specSuccess] at h
    by_cases hcond : rc = 0 ∧ out ≠ ""
    · rw [if_pos hcond] at h
      obtain ⟨hrc, hout⟩ := hcond
      subst hrc
      have hst : pyStripTruthy out = true := by
        by_contra hc
        simp [Bool.not_eq_true] at hc
        rw [hws out hc] at h
        exact Option.noConfusion h
      simp [hst, h]
    · rw [if_neg hcond] at h
      exact Option.noConfusion h
  | timedOut => rw [hm] at h; exact Option.noConfusion h
  | notFound => rw [hm] at h; exact Option.noConfusion h
  | otherError msg => rw [hm] at h; exact Option.noConfusion h

/-- If position `i` holds the first spec-successful strategy, the loop
returns that strategy's payload and makes exactly `i + 1` attempts. -/
theorem run_azure_cli_loop_first (exec : ProcCall → ExecOutcome)
    (parse : String → Option PyVal)
    (hws : ∀ s, pyStripTruthy s = false → parse s = none) :
    ∀ (ms : List ProcCall) (i : Nat) (hi : i < ms.length) (v : PyVal),
      specSuccess parse (exec (ms.get ⟨i, hi⟩)) = some v →
      (∀ j (hj : j < i), specSuccess parse (exec (ms.get ⟨j, Nat.lt_trans hj hi⟩)) = none) →
      run_azure_cli_loop exec parse ms = (v, i + 1) := by
  intro ms
  induction ms with
  | nil => intro i hi; exact absurd hi (by simp)
  | cons m rest ih =>
    intro i hi v hsucc hbefore
    cases i with
    | zero =>
      exact run_azure_cli_loop_step_succ exec parse hws m rest v hsucc
    | succ n =>
      have h0 : specSuccess parse (exec m) = none := by
        have := hbefore 0 (Nat.succ_pos n)
        simpa using this
      rw [run_azure_cli_loop_step_fail exec parse m rest h0]
      have hn : n < rest.length := Nat.lt_of_succ_lt_succ hi
      have hsucc' : specSuccess parse (exec (rest.get ⟨n, hn⟩)) = some v := by
        simpa using hsucc
      have hbefore' : ∀ j (hj : j < n),
          specSuccess parse (exec (rest.get ⟨j, Nat.lt_trans hj hn⟩)) = none := by
        intro j hj
        have := hbefore (j + 1) (Nat.succ_lt_succ hj)
        simpa using this
      rw [ih n hn v hsucc' hbefore']

/-- If every attempt in the list fails, the loop yields Python `None`. -/
theorem run_azure_cli_loop_all_fail (exec : ProcCall → ExecOutcome)
    (parse : String → Option PyVal) :
    ∀ ms : List ProcCall, (∀ m ∈ ms, attemptFails (exec m) = true) →
      (run_azure_cli_loop exec parse ms).1 = PyVal.pynone := by
  intro ms
  induction ms with
  | nil => intro; rfl
  | cons m rest ih =>
    intro hall
    have hm := hall m (List.mem_cons_self m rest)
    have hrest := fun x hx => hall x (List.mem_cons_of_mem m hx)
    have hnone : specSuccess parse (exec m) = none := by
      cases hx : exec m with
      | completed rc out err =>
        rw [hx] at hm
        simp only [attemptFails] at hm
        simp only [specSuccess]
        rcases Bool.or_eq_true_iff.mp hm with h | h
        · have : rc ≠ 0 := by simpa using h
          simp [this]
        · have : out = "" := by simpa using h
          simp [this]
      | timedOut => rfl
      | notFound => rfl
      | otherError msg => rfl
    rw [run_azure_cli_loop_step_fail exec parse m rest hnone]
    exact ih hrest

/-- A zero-exit attempt whose output the JSON parser rejects is not a
spec-success. -/
theorem specSuccess_eq_none_of_parse_none (parse : String → Option PyVal)
    (out err : String) (hp : parse out = none) :
    specSuccess parse (ExecOutcome.completed 0 out err) = none := by
  simp only [specSuccess]
  by_cases hout : out = ""
  · simp [hout]
  · simp [hout, hp]

/-- Splitting on whitespace peels off a leading space-free token. -/
theorem pySplitWsAux_token (tok : List Char) :
    ∀ (t acc : List Char), acc.reverse ++ tok ≠ [] →
      (∀ c ∈ tok, isPySpace c = false) →
      pySplitWsAux (tok ++ ' ' :: t) acc =
        (⟨acc.reverse ++ tok⟩ : String) :: pySplitWsAux t [] := by
  induction tok with
  | nil =>
    intro t acc hne _
    have hacc : acc ≠ [] := by
      intro h; exact hne (by simp [h])
    have : acc.isEmpty = false := by
      cases acc with
      | nil => exact absurd rfl hacc
      | cons a as => rfl
    simp [pySplitWsAux, isPySpace, this]
  | cons c cs ih =>
    intro t acc _ htok
    have hc : isPySpace c = false := htok c (List.mem_cons_self c cs)
    have hcs : ∀ x ∈ cs, isPySpace x = false :=
      fun x hx => htok x (List.mem_cons_of_mem c hx)
    have hne' : (c :: acc).reverse ++ cs ≠ [] := by simp
    have hih := ih t (c :: acc) hne' hcs
    simp only [List.cons_append, pySplitWsAux, hc]
    show pySplitWsAux (cs ++ ' ' :: t) (c :: acc) =
      (⟨acc.reverse ++ c :: cs⟩ : String) :: pySplitWsAux t []
    rw [hih]
    simp

/-- The first whitespace token of `"az.cmd " ++ s` is `"az.cmd"`. -/
theorem pySplitWs_azcmd (s : String) :
    pySplitWs ("az.cmd " ++ s) = "az.cmd" :: pySplitWs s := by
  have hdata : ("az.cmd " ++ s).data = "az.cmd".data ++ ' ' :: s.data := by
    have : ("az.cmd " ++ s).data = "az.cmd ".data ++ s.data := by
      simp [String.data_append]
    rw [this]
    rfl
  unfold pySplitWs
  rw [hdata]
  rw [pySplitWsAux_token "az.cmd".data s.data [] (by decide) (by decide)]
  rfl

/-- Splitting on a separator never produces an empty group list. -/
theorem pySplitChar_ne_nil (sep : Char) : ∀ l : List Char, pySplitChar sep l ≠ [] := by
  intro l
  cases l with
  | nil => simp [pySplitChar]
  | cons c cs =>
    simp only [pySplitChar]
    cases pySplitChar sep cs with
    | nil => simp
    | cons g gs =>
      by_cases h : c = sep <;> simp [h]

/-- Splitting on a separator yields one more group than there are
separator occurrences, exactly as Python's `str.split(sep)`. -/
theorem pySplitChar_length (sep : Char) :
    ∀ l : List Char, (pySplitChar sep l).length = l.count sep + 1 := by
  intro l
  induction l with
  | nil => rfl
  | cons c cs ih =>
    simp only [pySplitChar]
    cases hq : pySplitChar sep cs with
    | nil => exact absurd hq (pySplitChar_ne_nil sep cs)
    | cons g gs =>
      rw [hq] at ih
      by_cases h : c = sep
      · subst h
        simp [List.count_cons] at ih ⊢
        omega
      · have hb : (c == sep) = false := by simp [h]
        simp [h, List.count_cons, hb] at ih ⊢
        omega

/-- An `IndexError` arises in `format_vm_info` whenever the non-empty id
has fewer than two slash separators. -/
theorem format_vm_info_err_aux (vm : AzureVM) (sub : String) (d : Option OSInfo)
    (id : String) (hid : vm.id = some id) (hne : id ≠ "")
    (hct : id.data.count '/' < 2) :
    format_vm_info vm sub d = Except.error "IndexError" := by
  have hemp : id.isEmpty = false := by
    rw [Bool.eq_false_iff]
    intro hc
    exact hne ((String.isEmpty_iff id).mp hc)
  have hlen : (pySplitChar '/' id.data).length ≤ 2 := by
    rw [pySplitChar_length]
    omega
  have hget : (pySplitChar '/' id.data).get? 2 = none := by
    rw [List.get?_eq_none]
    exact hlen
  simp only [format_vm_info, hid, hemp, hget]
  rfl

/-- With a missing or empty id, `format_vm_info` succeeds and fills the
`subscription_id` field with `"Unknown"`. -/
theorem format_vm_info_ok_aux (vm : AzureVM) (sub : String) (d : Option OSInfo)
    (h : vm.id = none ∨ vm.id = some "") :
    ∃ rec, format_vm_info vm sub d = Except.ok rec ∧ rec.subscription_id = "Unknown" := by
  rcases h with h | h <;>
  · simp only [format_vm_info, h]
    refine ⟨_, rfl, ?_⟩
    repeat' split
    all_goals rfl

/-! Claim theorems. -/

/-- C1: for every strategy list and every logical command, the invoker
tries strategies strictly in the defined order, one at a time, and
returns the parsed payload of the first strategy whose process exits with
code zero, produces non-empty standard output, and whose output parses as
valid JSON; the attempt count `i + 1` shows that no strategy after that
one is attempted.  (`hws` records that the JSON parser rejects
whitespace-only text, a property of `json.loads`.) -/
theorem run_azure_cli_first_success_short_circuits
    (exec : ProcCall → ExecOutcome) (parse : String → Option PyVal)
    (is_windows : Bool) (command : String)
    (hws : ∀ s, pyStripTruthy s = false → parse s = none)
    (i : Nat) (hi : i < (run_azure_cli_methods is_windows command).length) (v : PyVal)
    (hsucc : specSuccess parse
      (exec ((run_azure_cli_methods is_windows command).get ⟨i, hi⟩)) = some v)
    (hbefore : ∀ j (hj : j < i), specSuccess parse
      (exec ((run_azure_cli_methods is_windows command).get ⟨j, Nat.lt_trans hj hi⟩)) = none) :
    run_azure_cli_command exec parse is_windows command = (v, i + 1) := by
  unfold run_azure_cli_command
  exact run_azure_cli_loop_first exec parse hws _ i hi v hsucc hbefore

/-- Witness for C1: with the first (argument-vector) strategy failing
with exit code 1 and the second (shell) strategy printing the JSON `42`,
the invoker returns the parsed payload after exactly two attempts. -/
theorem run_azure_cli_first_success_short_circuits_witness :
    run_azure_cli_command
      (fun p => match p with
        | ProcCall.argv _ _ => ExecOutcome.completed 1 "" ""
        | ProcCall.shell _ _ => ExecOutcome.completed 0 "42" "")
      (fun s => if s = "42" then some (PyVal.pyint 42) else none)
      false "az account list --output json" = (PyVal.pyint 42, 2) :=
  run_azure_cli_first_success_short_circuits _ _ false "az account list --output json"
    (fun s h => by
      by_cases hs : s = "42"
      · subst hs; exact absurd h (by decide)
      · simp [hs])
    1 (by decide) (PyVal.pyint 42) rfl
    (fun j hj => by
      have hj0 : j = 0 := by omega
      subst hj0
      rfl)

/-- C2: if every strategy attempt fails (non-zero exit code, empty
output, binary not found, timeout, or any other execution exception), the
invoker returns the Unavailable outcome, Python `None`; being a total
function of the attempt outcomes, it raises nothing to its caller. -/
theorem run_azure_cli_all_strategies_fail_unavailable
    (exec : ProcCall → ExecOutcome) (parse : String → Option PyVal)
    (is_windows : Bool) (command : String)
    (hall : ∀ m ∈ run_azure_cli_methods is_windows command, attemptFails (exec m) = true) :
    (run_azure_cli_command exec parse is_windows command).1 = PyVal.pynone := by
  unfold run_azure_cli_command
  exact run_azure_cli_loop_all_fail exec parse _ hall

/-- Witness for C2: the argument-vector strategy raises
`FileNotFoundError` and the shell strategy exits 2, so the invoker
returns `None`. -/
theorem run_azure_cli_all_strategies_fail_unavailable_witness :
    (run_azure_cli_command
      (fun p => match p with
        | ProcCall.argv _ _ => ExecOutcome.notFound
        | ProcCall.shell _ _ => ExecOutcome.completed 2 "oops" "boom")
      (fun _ => some (PyVal.pyint 7))
      false "az account list --output json").1 = PyVal.pynone :=
  run_azure_cli_all_strategies_fail_unavailable _ _ false "az account list --output json"
    (by decide)

/-- C3: for every strategy that exits with code zero but whose standard
output is not valid JSON, the invoker proceeds to the next strategy
instead of returning the unparsed text; in particular, a strategy list
consisting only of such strategies yields Unavailable. -/
theorem run_azure_cli_zero_exit_invalid_json_continues
    (exec : ProcCall → ExecOutcome) (parse : String → Option PyVal)
    (m : ProcCall) (rest : List ProcCall) (out err : String)
    (hm : exec m = ExecOutcome.completed 0 out err) (hp : parse out = none) :
    run_azure_cli_loop exec parse (m :: rest) =
      ((run_azure_cli_loop exec parse rest).1,
       (run_azure_cli_loop exec parse rest).2 + 1)
    ∧ ∀ ms : List ProcCall,
        (∀ x ∈ ms, ∃ o e, exec x = ExecOutcome.completed 0 o e ∧ parse o = none) →
        (run_azure_cli_loop exec parse ms).1 = PyVal.pynone := by
  constructor
  · apply run_azure_cli_loop_step_fail
    rw [hm]
    exact specSuccess_eq_none_of_parse_none parse out err hp
  · intro ms
    induction ms with
    | nil => intro _; rfl
    | cons x xs ih =>
      intro hms
      obtain ⟨o, e, hx, ho⟩ := hms x (List.mem_cons_self x xs)
      have hnone : specSuccess parse (exec x) = none := by
        rw [hx]
        exact specSuccess_eq_none_of_parse_none parse o e ho
      rw [run_azure_cli_loop_step_fail exec parse x xs hnone]
      exact ih (fun y hy => hms y (List.mem_cons_of_mem x hy))

/-- Witness for C3: a single strategy exiting 0 with the non-JSON text
`not json` yields Unavailable. -/
theorem run_azure_cli_zero_exit_invalid_json_continues_witness :
    (run_azure_cli_loop (fun _ => ExecOutcome.completed 0 "not json" "")
      (fun _ => none) [ProcCall.shell "az account show" (some 60)]).1 = PyVal.pynone :=
  (run_azure_cli_zero_exit_invalid_json_continues
      (fun _ => ExecOutcome.completed 0 "not json" "") (fun _ => none)
      (ProcCall.shell "az account show" (some 60)) [] "not json" "" rfl rfl).2
    [ProcCall.shell "az account show" (some 60)]
    (fun _ _ => ⟨"not json", "", rfl, rfl⟩)

/-- C4: the strategy list is fixed per detected host platform: POSIX
hosts get exactly two strategies (direct argument-vector execution of the
canonical binary `az`, then shell-string execution of the same), Windows
hosts exactly four, covering the `.cmd`-suffixed name and the bare name
under both execution modes, in a fixed order; the availability probe uses
lists of the same shape.  The hypothesis states that the logical command
names the canonical binary `az` as its first token, as every command
built by the script does. -/
theorem azure_strategy_lists_per_platform (command : String)
    (hcmd : (pySplitWs command).head? = some "az") :
    ((run_azure_cli_methods false command).map (fun p => (procMode p, procBinary p)) =
      [(ExecMode.direct, some "az"), (ExecMode.shell, some "az")])
    ∧ ((run_azure_cli_methods true command).map (fun p => (procMode p, procBinary p)) =
      [(ExecMode.shell, some "az.cmd"), (ExecMode.shell, some "az"),
       (ExecMode.direct, some "az.cmd"), (ExecMode.direct, some "az")])
    ∧ (∀ w, (check_azure_cli_installed_methods w).map (fun p => (procMode p, procBinary p)) =
        if w then [(ExecMode.shell, some "az.cmd"), (ExecMode.shell, some "az"),
                   (ExecMode.direct, some "az.cmd"), (ExecMode.direct, some "az")]
        else [(ExecMode.direct, some "az"), (ExecMode.shell, some "az")]) := by
  refine ⟨?_, ?_, ?_⟩
  · simp [run_azure_cli_methods, procMode, procBinary, hcmd]
  · simp [run_azure_cli_methods, procMode, procBinary, hcmd, pySplitWs_azcmd]
  · intro w
    cases w <;> simp [check_azure_cli_installed_methods, procMode, procBinary] <;> decide

/-- Witness for C4: the POSIX strategy list for the script's subscription
listing command is the claimed two-element list. -/
theorem azure_strategy_lists_per_platform_witness :
    (run_azure_cli_methods false "az account list --output json").map
      (fun p => (procMode p, procBinary p)) =
      [(ExecMode.direct, some "az"), (ExecMode.shell, some "az")] :=
  (azure_strategy_lists_per_platform "az account list --output json" (by decide)).1

/-- C5 counterexample: the MSK cluster lister catches
`NoCredentialsError`, prints a remediation message, and returns normally,
so the process exits 0, not 1, when authentication is missing; the MSK
CloudWatch script does the same. -/
theorem msk_missing_credentials_exit_zero :
    list_msk_clusters_exit AwsOutcome.noCredentials = 0
    ∧ list_msk_clusters_exit AwsOutcome.noCredentials ≠ 1
    ∧ msk_cloudwatch_main_exit AwsOutcome.noCredentials = 0 :=
  ⟨rfl, by decide, rfl⟩

/-- C5 (amended): the Azure script exits 1 when the CLI is missing or the
login check fails and 0 otherwise (including when zero resources are
found and when the body raises); the MSK scripts exit 0 on every outcome,
including missing AWS credentials. -/
theorem script_exit_codes_amended (logged_in : Bool) (body : BodyOutcome) (o : AwsOutcome) :
    azure_main_exit false logged_in body = 1
    ∧ azure_main_exit true false body = 1
    ∧ azure_main_exit true true body = 0
    ∧ list_msk_clusters_exit o = 0
    ∧ msk_cloudwatch_main_exit o = 0 :=
  ⟨rfl, rfl, rfl, rfl, rfl⟩

/-- C6 counterexample: the session probe `check_azure_login` passes no
`timeout=` argument to any of its strategy attempts, on either platform,
so not every companion-probe attempt is bounded by a per-attempt
timeout. -/
theorem session_probe_attempts_have_no_timeout :
    ((check_azure_login_methods true).map procTimeoutSec = [none, none, none, none])
    ∧ ((check_azure_login_methods false).map procTimeoutSec = [none, none]) :=
  ⟨rfl, rfl⟩

/-- C6 (amended): every invoker strategy attempt carries a per-attempt
60-second timeout and every availability-probe attempt a per-attempt
10-second timeout (the timeout is attached to each single attempt, not to
the whole multi-strategy call), while the session probe's attempts carry
no timeout at all. -/
theorem per_attempt_timeouts_amended (w : Bool) (command : String) :
    ((run_azure_cli_methods w command).all (fun p => procTimeoutSec p == some 60) = true)
    ∧ ((check_azure_cli_installed_methods w).all (fun p => procTimeoutSec p == some 10) = true)
    ∧ ((check_azure_login_methods w).all (fun p => procTimeoutSec p == none) = true) := by
  cases w <;> exact ⟨rfl, rfl, rfl⟩

/-- C7 counterexample: an uncaught body error is absorbed at the Azure
script's entry point but the process then exits 0, not non-zero; and the
MSK CloudWatch entry point logs only the error message, not a full
diagnostic trace. -/
theorem toplevel_error_exit_zero :
    (azure_main_toplevel (BodyOutcome.exn "boom")).exitCode = 0
    ∧ (msk_cloudwatch_main_toplevel (AwsOutcome.otherExn "boom")).logsTraceback = false :=
  ⟨rfl, rfl⟩

/-- C7 (amended): errors escaping the main flow are caught at the script
entry point and never propagate; the Azure script logs the message and a
full traceback, the MSK CloudWatch script logs the message only; in both
scripts the entry point then returns normally, so the process exits 0
rather than with a non-zero code. -/
theorem toplevel_error_disposal_amended (m : String) :
    azure_main_toplevel (BodyOutcome.exn m) =
      ⟨false, true, true, 0⟩
    ∧ msk_cloudwatch_main_toplevel (AwsOutcome.otherExn m) =
      ⟨false, true, false, 0⟩ :=
  ⟨rfl, rfl⟩

/-- C8: writing a list of VM records with `save_vms_to_json` and
re-reading the file yields a structure whose `vms` entry equals the
original list, modulo non-JSON values (such as timestamps) being replaced
by their string representations. -/
theorem save_vms_to_json_roundtrip (now_iso : String) (vms_info : List PyVal) :
    pyDictGet "vms" (jsonToPy (pyToJson (save_vms_to_json_data now_iso vms_info)))
      = some (PyVal.pylist (pyJsonNormList vms_info)) := by
  simp only [save_vms_to_json_data, pyToJson, pyToJsonDict, jsonToPy, jsonToPyDict,
    pyDictGet, List.lookup, jsonToPy_pyToJsonList]
  rfl

/-- C9: the invoker encodes Unavailable as Python `None` and returns the
parsed value unconditionally on parse success, so a strategy that
successfully returns the JSON text `null` produces the same result as
total failure of every strategy; and the falsiness test of `main`'s
subscription check aborts on a successfully parsed empty list exactly as
it does on the Unavailable outcome. -/
theorem parsed_null_indistinguishable_from_unavailable
    (exec₁ exec₂ : ProcCall → ExecOutcome) (parse : String → Option PyVal)
    (m : ProcCall) (ms : List ProcCall)
    (hnull : exec₁ m = ExecOutcome.completed 0 "null" "")
    (hparse : parse "null" = some PyVal.pynone)
    (hall : ∀ x ∈ ms, attemptFails (exec₂ x) = true) :
    (run_azure_cli_loop exec₁ parse [m]).1 = (run_azure_cli_loop exec₂ parse ms).1
    ∧ main_subscriptions_check_aborts (PyVal.pylist []) = true
    ∧ main_subscriptions_check_aborts PyVal.pynone = true := by
  refine ⟨?_, rfl, rfl⟩
  rw [run_azure_cli_loop_all_fail exec₂ parse ms hall]
  have hst : pyStripTruthy "null" = true := by decide
  rw [run_azure_cli_loop, hnull]
  simp [hst, hparse]

/-- Witness for C9: one strategy printing `null` with exit code 0 is
indistinguishable from one strategy that timed out. -/
theorem parsed_null_indistinguishable_from_unavailable_witness :
    (run_azure_cli_loop (fun _ => ExecOutcome.completed 0 "null" "")
        (fun s => if s = "null" then some PyVal.pynone else none)
        [ProcCall.argv ["az", "account", "list"] (some 60)]).1
      = (run_azure_cli_loop (fun _ => ExecOutcome.timedOut)
          (fun s => if s = "null" then some PyVal.pynone else none)
          [ProcCall.shell "az account list" (some 60)]).1 :=
  (parsed_null_indistinguishable_from_unavailable
      (fun _ => ExecOutcome.completed 0 "null" "") (fun _ => ExecOutcome.timedOut)
      (fun s => if s = "null" then some PyVal.pynone else none)
      (ProcCall.argv ["az", "account", "list"] (some 60))
      [ProcCall.shell "az account list" (some 60)]
      rfl rfl (by decide)).1

/-- C10: for every input VM whose id is a non-empty string containing
fewer than two `/` characters, `format_vm_info` raises `IndexError`
instead of returning a record (it indexes the third `/`-separated segment
of the id); when the id is missing or empty it instead returns a record
whose `subscription_id` field is `"Unknown"`. -/
theorem format_vm_info_short_id_index_error
    (vm : AzureVM) (sub : String) (d : Option OSInfo) (id : String)
    (hid : vm.id = some id) (hne : id ≠ "") (hct : id.data.count '/' < 2) :
    format_vm_info vm sub d = Except.error "IndexError"
    ∧ ∀ (vm₂ : AzureVM) (sub₂ : String) (d₂ : Option OSInfo),
        (vm₂.id = none ∨ vm₂.id = some "") →
        ∃ rec, format_vm_info vm₂ sub₂ d₂ = Except.ok rec ∧ rec.subscription_id = "Unknown" :=
  ⟨format_vm_info_err_aux vm sub d id hid hne hct,
   fun vm₂ sub₂ d₂ h => format_vm_info_ok_aux vm₂ sub₂ d₂ h⟩

/-- Witness for C10: a VM whose id is the slash-free string `abc` makes
`format_vm_info` raise `IndexError`. -/
theorem format_vm_info_short_id_index_error_witness :
    format_vm_info
      ⟨some "vm1", some "rg1", some "eastus", some "abc", none, none, none, none⟩
      "MySub" none = Except.error "IndexError" :=
  (format_vm_info_short_id_index_error
      ⟨some "vm1", some "rg1", some "eastus", some "abc", none, none, none, none⟩
      "MySub" none "abc" rfl (by decide) (by decide)).1
